import Mathlib

/-!
Verification of the Cadence semantic checker and interpreter core,
following the repository sources:
- entitlement sets (conjunction/disjunction structure and access projection),
- interface-conformance linearization for pre/post-condition order,
- array-literal supertype inference,
- the interpreter's storage-reference model (dereference, equality),
- the interpreter error taxonomy.
-/

namespace Cadence

/-! ### Entitlement sets (`runtime/sema`)

Entitlements are identified by their type identity; we use `Nat` identifiers.
The `EntitlementSet` implementation file is not part of the shown sources
(only `src/runtime/sema/entitlementset_test.go` is), so the operations below
are modelled from the spec (section 4.2), constrained by the behavior that
test file asserts. -/

/-- An atomic entitlement, abstracted by its stable type identity. -/
abbrev Entitlement := Nat

/-- Insert into a strictly sorted list, skipping duplicates. -/
def insertSorted (a : Entitlement) : List Entitlement → List Entitlement
  | [] => [a]
  | b :: rest =>
    if a = b then b :: rest
    else if a < b then a :: b :: rest
    else b :: insertSorted a rest

/-- Modelled from the spec: the structural key of a disjunction
(`disjunctionKey` in the missing `entitlementset.go`): two disjunctions with
the same member set, in any order, get the same key.  We realize the key as
the sorted, duplicate-free list of members. -/
def disjunctionKey (d : List Entitlement) : List Entitlement :=
  d.foldr insertSorted []

/-- Modelled from the spec: an `EntitlementSet` owns an unordered set of
required atomic entitlements (the conjunction part) plus a set of disjunction
groups.  Insertion order is kept, as in the ordered maps of the source. -/
structure EntitlementSet where
  Entitlements : List Entitlement := []
  Disjunctions : List (List Entitlement) := []
deriving DecidableEq, Repr

/-- Modelled from the spec: `Add(e)` inserts an atom into the conjunction
set; the disjunctions are not touched (the set is non-minimal by
construction). -/
def EntitlementSet.Add (s : EntitlementSet) (e : Entitlement) : EntitlementSet :=
  if e ∈ s.Entitlements then s
  else { s with Entitlements := s.Entitlements ++ [e] }

/-- Set a disjunction under its structural key: if an entry with the same key
exists, it is replaced in place (one entry per key); otherwise the
disjunction is appended.  This models `Disjunctions.Set(key, disjunction)` on
the ordered map of the source. -/
def setByKey : List (List Entitlement) → List Entitlement → List (List Entitlement)
  | [], d => [d]
  | dj :: rest, d =>
    if disjunctionKey dj = disjunctionKey d then d :: rest
    else dj :: setByKey rest d

/-- Modelled from the spec: `AddDisjunction(set)` drops the new disjunction
silently when the conjunction set already contains any of its members;
otherwise it is added, deduplicated structurally by `disjunctionKey`. -/
def EntitlementSet.AddDisjunction (s : EntitlementSet) (d : List Entitlement) :
    EntitlementSet :=
  if d.any (fun m => decide (m ∈ s.Entitlements)) then s
  else { s with Disjunctions := setByKey s.Disjunctions d }

/-- Modelled from the spec: `Minimize()` removes every disjunction whose
member set intersects the conjunction set. -/
def EntitlementSet.Minimize (s : EntitlementSet) : EntitlementSet :=
  { s with
      Disjunctions :=
        s.Disjunctions.filter
          (fun d => !d.any (fun m => decide (m ∈ s.Entitlements))) }

/-- The kind of an entitlement-set access: `Conjunction` or `Disjunction`. -/
inductive EntitlementSetKind where
  | conjunction
  | disjunction
deriving DecidableEq, Repr

/-- An authorization descriptor: `Unauthorized`, or an
`EntitlementSetAccess` with a set of entitlements and a kind. -/
inductive Access where
  | unauthorized
  | entitlementSetAccess (entitlements : List Entitlement) (kind : EntitlementSetKind)
deriving DecidableEq, Repr

/-- Add one entitlement to an accumulating entitlement list, keeping the
first-insertion order and ignoring duplicates (ordered-set `Set`). -/
def addEntitlement (acc : List Entitlement) (e : Entitlement) : List Entitlement :=
  if e ∈ acc then acc else acc ++ [e]

/-- Union a disjunction's members into an accumulating entitlement list
(ordered-set `SetAll`). -/
def unionInto (acc : List Entitlement) (d : List Entitlement) : List Entitlement :=
  d.foldl addEntitlement acc

/-- Union all disjunctions into an accumulating entitlement list. -/
def unionAll (acc : List Entitlement) (ds : List (List Entitlement)) :
    List Entitlement :=
  ds.foldl unionInto acc

/-- Modelled from the spec: `Access()` projects the set to a single
authorization descriptor.  The missing `entitlementset.go` is constrained by
`TestEntitlementSet_Access` in `src/runtime/sema/entitlementset_test.go`,
whose case "entitlement, one disjunction, not minimal" (with its comment
"disjunction got removed during minimization") shows that `Access()` first
minimizes the set; it then returns `Unauthorized` if the minimized set is
empty, the conjunction if no disjunctions remain, the single remaining
disjunction if the conjunction part is empty, and otherwise the conjunction
of every entitlement mentioned anywhere in the minimized set. -/
def EntitlementSet.Access (s : EntitlementSet) : Access :=
  let m := s.Minimize
  match m.Disjunctions with
  | [] =>
    if m.Entitlements.isEmpty then .unauthorized
    else .entitlementSetAccess m.Entitlements .conjunction
  | ds =>
    if m.Entitlements.isEmpty then
      match ds with
      | [d] => .entitlementSetAccess d .disjunction
      | ds => .entitlementSetAccess (unionAll [] ds) .conjunction
    else .entitlementSetAccess (unionAll m.Entitlements ds) .conjunction

/-- The projection described by the claim, read literally: `Unauthorized` if
empty; the conjunction if no disjunctions; the single disjunction
(`Disjunction` kind) when there is exactly one disjunction and every
conjunction atom is one of its members ("no conjunction atoms beyond it");
otherwise the conjunction of every entitlement mentioned anywhere.  No
minimization step. -/
def accessPerClaim (s : EntitlementSet) : Access :=
  match s.Disjunctions with
  | [] =>
    if s.Entitlements.isEmpty then .unauthorized
    else .entitlementSetAccess s.Entitlements .conjunction
  | [d] =>
    if s.Entitlements.all (fun e => decide (e ∈ d)) then
      .entitlementSetAccess d .disjunction
    else .entitlementSetAccess (unionAll s.Entitlements [d]) .conjunction
  | ds => .entitlementSetAccess (unionAll s.Entitlements ds) .conjunction

/-- The projection described by the claim under the stricter reading of the
third case: the single disjunction is returned only when the conjunction part
is empty.  No minimization step. -/
def accessPerClaimStrict (s : EntitlementSet) : Access :=
  match s.Disjunctions with
  | [] =>
    if s.Entitlements.isEmpty then .unauthorized
    else .entitlementSetAccess s.Entitlements .conjunction
  | [d] =>
    if s.Entitlements.isEmpty then .entitlementSetAccess d .disjunction
    else .entitlementSetAccess (unionAll s.Entitlements [d]) .conjunction
  | ds => .entitlementSetAccess (unionAll s.Entitlements ds) .conjunction

/-- The concrete set of the source test case
`TestEntitlementSet_Access/entitlement, one disjunction, not minimal`:
`AddDisjunction({E1, E2})` followed by `Add(E1)` (entitlements numbered). -/
def notMinimalSet : EntitlementSet :=
  (({} : EntitlementSet).AddDisjunction [1, 2]).Add 1

/-- A set with two disjoint disjunctions and one unrelated conjunction atom,
used to exercise the soundness-fallback branch of `Access()`. -/
def mixedSet : EntitlementSet :=
  ((({} : EntitlementSet).Add 1).AddDisjunction [2, 3]).AddDisjunction [4, 5]

/-! ### Interface conformance linearization (condition order)

The interface-resolution and condition-evaluation code is not among the shown
sources (only the interpreter test
`TestInterpretInterfaceFunctionConditionsInheritance` in
`src/unnamed/part_002` is), so the traversal is modelled from the spec
(section 4.4). -/

/-- One level of the depth-first traversal: visit each node of `ns`
left-to-right; a node already in the visited accumulator is skipped, a new
node is appended to the accumulator and its direct conformances are explored
by `recurse` before moving to the next sibling. -/
def dfsStep (g : String → List String)
    (recurse : List String → List String → List String) :
    List String → List String → List String
  | [], acc => acc
  | n :: rest, acc =>
    let acc2 := if acc.contains n then acc else recurse (g n) (acc ++ [n])
    dfsStep g recurse rest acc2

/-- Modelled from the spec: depth-first pre-order traversal of a conformance
graph with a visited set keyed by interface identity — each node is emitted
once, when first reached; each direct conformance is visited left-to-right,
recursing before moving to the next sibling.  `fuel` bounds the recursion
depth (conformance graphs are acyclic; any fuel at least the graph depth
yields the full traversal). -/
def dfsPre (g : String → List String) : Nat → List String → List String → List String
  | 0 => dfsStep g (fun _ acc => acc)
  | fuel + 1 => dfsStep g (dfsPre g fuel)

/-- Modelled from the spec: pre-conditions execute in depth-first pre-order —
the interfaces' pre-conditions first (each declaring interface's block
exactly once), the concrete type's own pre-condition last. -/
def preConditionOrder (g : String → List String) (concrete : String)
    (fuel : Nat) : List String :=
  dfsPre g fuel (g concrete) [] ++ [concrete]

/-- Modelled from the spec: post-conditions execute in exactly the reverse of
the pre-condition order. -/
def postConditionOrder (g : String → List String) (concrete : String)
    (fuel : Nat) : List String :=
  (preConditionOrder g concrete fuel).reverse

/-- The conformance diamond of the source test: concrete `A: B`,
`B: C, D`, `C: E, F`, `D: F`. -/
def diamondConformances : String → List String
  | "A" => ["B"]
  | "B" => ["C", "D"]
  | "C" => ["E", "F"]
  | "D" => ["F"]
  | _ => []

/-! ### The sema type model and supertype inference

The checker sources are not among the shown files (only
`src/sema/type_inference_test.go` and `src/sema/arrays_dictionaries_test.go`
are), so the type lattice and the literal supertype-inference algorithm are
modelled from the spec (sections 3, 4.1 and 4.3), restricted to the types the
claims exercise. -/

/-- The static types needed by the claims: `Never` (the bottom type of `nil`
unwrapping), the numeric types `Int`, `UInt`, the abstract `Integer`,
`Bool`, `String`, the fixed-point `Fix64`, the universal hashable-struct top
type, the top types `AnyStruct`/`AnyResource`, optionals, variable- and
constant-sized arrays, and named struct/resource composites.  Two types are
equal iff their identities match (structural equality here). -/
inductive Ty where
  | never
  | int
  | uint
  | integer
  | bool
  | string
  | fix64
  | hashableStruct
  | anyStruct
  | anyResource
  | optional (t : Ty)
  | varArray (t : Ty)
  | constArray (t : Ty) (n : Nat)
  | compositeStruct (name : String)
  | compositeResource (name : String)
deriving DecidableEq, Repr

/-- Whether a type is resource-kinded (a resource composite, `AnyResource`,
or a container of a resource-kinded type). -/
def Ty.isResourceKinded : Ty → Bool
  | .anyResource => true
  | .compositeResource _ => true
  | .optional t => t.isResourceKinded
  | .varArray t => t.isResourceKinded
  | .constArray t _ => t.isResourceKinded
  | _ => false

/-- Whether a type is below the universal hashable-struct top type
(a hashable/equatable primitive, or that top type itself). -/
def Ty.isHashableStructKinded : Ty → Bool
  | .never => true
  | .int => true
  | .uint => true
  | .integer => true
  | .bool => true
  | .string => true
  | .fix64 => true
  | .hashableStruct => true
  | _ => false

/-- Whether a type belongs to the integer family (below abstract
`Integer`). -/
def Ty.isIntegerFamily : Ty → Bool
  | .int => true
  | .uint => true
  | .integer => true
  | _ => false

/-- Modelled from the spec: the runtime subtype check
(`IsSubTypeOfSemaType` collaborator): reflexive, `Never` at the bottom,
`AnyStruct`/`AnyResource` at the top of the respective kinds, the
hashable-struct top above the hashable primitives, `Integer` above `Int` and
`UInt`, optionals and arrays covariant, constant-sized arrays additionally
requiring identical declared length. -/
def isSubTy (a b : Ty) : Bool :=
  if a = b then true
  else
    match b with
    | .anyStruct => !a.isResourceKinded
    | .anyResource => a.isResourceKinded
    | .hashableStruct => a.isHashableStructKinded
    | .integer => a.isIntegerFamily
    | .optional b1 =>
      match a with
      | .never => true
      | .optional a1 => isSubTy a1 b1
      | a => isSubTy a b1
    | .varArray b1 =>
      match a with
      | .never => true
      | .varArray a1 => isSubTy a1 b1
      | _ => false
    | .constArray b1 n =>
      match a with
      | .never => true
      | .constArray a1 m => m = n && isSubTy a1 b1
      | _ => false
    | _ => a = .never

/-- The fallback supertype of two types with no closer common shape:
`AnyResource` when both are resource-kinded, the hashable-struct top when
both are below it, `AnyStruct` when both are non-resource, and no common
supertype at all when a resource operand is mixed with a non-resource
operand. -/
def collapseTy (a b : Ty) : Option Ty :=
  if a.isResourceKinded && b.isResourceKinded then some .anyResource
  else if !a.isResourceKinded && !b.isResourceKinded then
    if a.isHashableStructKinded && b.isHashableStructKinded then
      some .hashableStruct
    else some .anyStruct
  else none

/-- Modelled from the spec: the least common supertype of two types (the
binary step of the literal supertype-inference algorithm, section 4.3):
identical types join to themselves; `Never` is neutral; optionals unify to an
optional of the unwrapped join; variable-sized arrays recurse structurally;
constant-sized arrays recurse structurally only when the declared sizes
match, and otherwise collapse to the universal top type; mixed
signed/unsigned integers widen to abstract `Integer`; anything else
collapses per `collapseTy` (no common supertype when resources and
non-resources are mixed).  `fuel` bounds the structural recursion depth. -/
def joinTy : Nat → Ty → Ty → Option Ty
  | 0, _, _ => none
  | fuel + 1, a, b =>
    if a = b then some a
    else
      match a, b with
      | .never, t => some t
      | t, .never => some t
      | .optional a1, .optional b1 => (joinTy fuel a1 b1).map .optional
      | .optional a1, t => (joinTy fuel a1 t).map .optional
      | t, .optional b1 => (joinTy fuel t b1).map .optional
      | .varArray a1, .varArray b1 => (joinTy fuel a1 b1).map .varArray
      | .constArray a1 m, .constArray b1 n =>
        if m = n then (joinTy fuel a1 b1).map (.constArray · n)
        else collapseTy a b
      | a, b =>
        if a.isIntegerFamily && b.isIntegerFamily then some .integer
        else collapseTy a b

/-- The recursion-depth bound used for joins; any bound at least the
structural depth of the operands yields the full join. -/
def joinFuel : Nat := 100

/-- Modelled from the spec: the least common supertype of a list of operand
types, folding the binary join starting from `Never`. -/
def leastCommonSuperTypeOfList (ts : List Ty) : Option Ty :=
  ts.foldl (fun acc t => acc.bind (fun a => joinTy joinFuel a t)) (some .never)

/-- Checker errors needed by the claims. -/
inductive CheckerErr where
  | typeAnnotationRequired
  | invalidConstantSizedTypeSize (size : Nat)
  | constantSizedArrayLiteralSize (expectedSize actualCount : Nat)
deriving DecidableEq, Repr

/-- Modelled from the spec: element-type inference for an array literal from
its operand types.  When no common supertype exists (mixing resource and
non-resource operands, or an empty literal leaving only `Never`), the checker
reports a "type annotation required" error rather than guessing. -/
def inferArrayLiteralElementType (operandTypes : List Ty) :
    Except CheckerErr Ty :=
  match leastCommonSuperTypeOfList operandTypes with
  | none => .error .typeAnnotationRequired
  | some t =>
    if t = .never then .error .typeAnnotationRequired
    else .ok t

/-- Modelled from the spec: the largest representable constant-sized array
size (`N` must fit the platform's signed size type). -/
def maxConstantSizedArraySize : Nat := 2 ^ 63 - 1

/-- Modelled from the spec: checking a declaration `let x: [T; N] = [...]`
with declared size `N` and a literal of `literalCount` elements.  The checker
collects multiple errors per pass: an out-of-range size error when `N`
exceeds the representable size, and a literal-size-mismatch error when the
literal's element count differs from `N`; neither masks the other. -/
def checkConstantSizedArrayDeclaration (declaredSize literalCount : Nat) :
    List CheckerErr :=
  (if maxConstantSizedArraySize < declaredSize then
    [CheckerErr.invalidConstantSizedTypeSize declaredSize]
  else []) ++
  (if literalCount ≠ declaredSize then
    [CheckerErr.constantSizedArrayLiteralSize declaredSize literalCount]
  else [])

/-! ### The interpreter value and storage-reference model
(`src/unnamed/part_002`, `StorageReferenceValue`) -/

/-- A storage path value: a domain identifier and a path identifier. -/
structure PathValue where
  domain : String
  identifier : String
deriving DecidableEq, Repr

/-- The authorization attached to a reference: `Unauthorized`, or an
entitlement-set access (conjunction or disjunction of entitlement
identifiers). -/
inductive Authorization where
  | unauthorized
  | entitlementSet (entitlements : List Entitlement) (kind : EntitlementSetKind)
deriving DecidableEq, Repr

/-- `Authorization.Equal`: authorizations compare by their entitlement-set
contents; in this model their structural equality. -/
def Authorization.equal (a b : Authorization) : Bool :=
  decide (a = b)

/-- `StorageReferenceValue` (from `src/unnamed/part_002`): holds a borrowed
type, a target path, a target storage address, and an authorization.
Addresses are abstracted by `Nat`. -/
structure StorageReferenceValue where
  BorrowedType : Option Ty
  TargetPath : PathValue
  TargetStorageAddress : Nat
  Authorization : Authorization
deriving DecidableEq, Repr

/-- Runtime values as far as the storage-reference claims need them:
primitive values, composite values abstracted by kind and identifier, and
the two reference variants (storage references, and ephemeral references to
another value). -/
inductive IValue where
  | intValue (i : Int)
  | boolValue (b : Bool)
  | stringValue (s : String)
  | structValue (qualifiedIdentifier : String)
  | resourceValue (qualifiedIdentifier : String)
  | storageReference (r : StorageReferenceValue)
  | ephemeralReference (authorization : Authorization) (referent : IValue)
deriving DecidableEq, Repr

/-- Whether a value is a `ReferenceValue` (the Go interface implemented by
the storage and ephemeral reference variants). -/
def IValue.isReference : IValue → Bool
  | .storageReference _ => true
  | .ephemeralReference _ _ => true
  | _ => false

/-- The runtime static type of a value.  The reference branches are guarded
away before `StaticType` is consulted in `dereference` (the Go
implementation would dereference there); they are mapped to the
corresponding composite top types and are never reached below. -/
def IValue.staticType : IValue → Ty
  | .intValue _ => .int
  | .boolValue _ => .bool
  | .stringValue _ => .string
  | .structValue name => .compositeStruct name
  | .resourceValue name => .compositeResource name
  | .storageReference _ => .anyStruct
  | .ephemeralReference _ _ => .anyStruct

/-- The storage collaborator: `ReadStored(address, domain, identifier)`
yields the stored value or nothing. -/
def Storage := Nat → String → String → Option IValue

/-- Point update of the storage collaborator
(`WriteValue(address, domain, identifier, value-or-nil)`). -/
def writeStored (s : Storage) (address : Nat) (domain identifier : String)
    (v : Option IValue) : Storage :=
  fun a d i =>
    if a = address ∧ d = domain ∧ i = identifier then v else s a d i

/-- The outcome of `StorageReferenceValue.dereference`: a `(*Value, error)`
pair collapsed to: success with an optional value (`nil, nil` when nothing
is stored), a returned `ForceCastTypeMismatchError`, or a
`NestedReferenceError` panic. -/
inductive DerefOutcome where
  | ok (v : Option IValue)
  | forceCastError (expectedType actualType : Ty)
  | nestedReferencePanic (v : IValue)
deriving DecidableEq, Repr

/-- `StorageReferenceValue.dereference` (from `src/unnamed/part_002`):
re-reads the value at `(address, domain, identifier)` from the storage
collaborator; returns `(nil, nil)` when nothing is stored; panics with
`NestedReferenceError` when the stored value is itself a reference; and,
when a borrowed type is set, returns `ForceCastTypeMismatchError` unless the
fetched value's static type is a subtype of it. -/
def StorageReferenceValue.dereference (v : StorageReferenceValue)
    (readStored : Storage) : DerefOutcome :=
  let address := v.TargetStorageAddress
  let domain := v.TargetPath.domain
  let identifier := v.TargetPath.identifier
  match readStored address domain identifier with
  | none => .ok none
  | some referenced =>
    if referenced.isReference then .nestedReferencePanic referenced
    else
      match v.BorrowedType with
      | some borrowedType =>
        let staticType := referenced.staticType
        if isSubTy staticType borrowedType then .ok (some referenced)
        else .forceCastError borrowedType staticType
      | none => .ok (some referenced)

/-- The data of a `DereferenceError` (its `Cause`, `ExpectedType` and
`ActualType` fields; unset types are `none`, an unset cause is `""`). -/
structure DereferenceErrorData where
  Cause : String
  ExpectedType : Option Ty
  ActualType : Option Ty
deriving DecidableEq, Repr

/-- The outcome of `StorageReferenceValue.ReferencedValue` /
`mustReferencedValue`: a value (optional for `ReferencedValue`), a
`DereferenceError` panic, or a relayed `NestedReferenceError` panic. -/
inductive RefValOutcome where
  | value (v : Option IValue)
  | panicDereferenceError (e : DereferenceErrorData)
  | panicNestedReference (v : IValue)
deriving DecidableEq, Repr

/-- `StorageReferenceValue.ReferencedValue` (from `src/unnamed/part_002`):
returns the dereferenced pointer on success; on a force-cast type mismatch,
panics with a `DereferenceError` carrying the same expected and actual types
when `errorOnFailedDereference` is set, and yields no value otherwise. -/
def StorageReferenceValue.ReferencedValue (v : StorageReferenceValue)
    (readStored : Storage) (errorOnFailedDereference : Bool) : RefValOutcome :=
  match v.dereference readStored with
  | .ok referencedValue => .value referencedValue
  | .forceCastError expectedType actualType =>
    if errorOnFailedDereference then
      .panicDereferenceError ⟨"", some expectedType, some actualType⟩
    else .value none
  | .nestedReferencePanic w => .panicNestedReference w

/-- `StorageReferenceValue.mustReferencedValue` (from
`src/unnamed/part_002`): requires a value; when `ReferencedValue` yields
none, panics with a `DereferenceError` whose cause is
"no value is stored at this path". -/
def StorageReferenceValue.mustReferencedValue (v : StorageReferenceValue)
    (readStored : Storage) : RefValOutcome :=
  match v.ReferencedValue readStored true with
  | .value none =>
    .panicDereferenceError ⟨"no value is stored at this path", none, none⟩
  | .value (some referencedValue) => .value (some referencedValue)
  | other => other

/-- `StorageReferenceValue.Equal` (from `src/unnamed/part_002`): the other
value must be a `StorageReferenceValue` with the same target storage
address, the same target path, and an equal authorization; then the borrowed
types must both be unset, or be equal types.  No storage is consulted. -/
def StorageReferenceValue.Equal (v : StorageReferenceValue)
    (other : IValue) : Bool :=
  match other with
  | .storageReference otherReference =>
    if v.TargetStorageAddress ≠ otherReference.TargetStorageAddress
        ∨ v.TargetPath ≠ otherReference.TargetPath
        ∨ ¬ (v.Authorization.equal otherReference.Authorization) = true then
      false
    else
      match v.BorrowedType, otherReference.BorrowedType with
      | none, none => true
      | some borrowedType, some otherBorrowedType =>
        decide (borrowedType = otherBorrowedType)
      | _, _ => false
  | _ => false

/-! ### The interpreter error taxonomy (`src/interpreter/errors.go`)

Every marker-bearing error type of `errors.go`, with which of the two marker
interfaces (`errors.UserError` via `IsUserError`, `errors.InternalError` via
`IsInternalError`) it implements, and whether it embeds a `LocationRange`. -/

/-- The interpreter error kinds declared in `src/interpreter/errors.go`
(every type there implementing one of the two marker interfaces). -/
inductive ErrorKind where
  | unsupportedOperation
  | positionedError
  | notDeclaredError
  | notInvokableError
  | argumentCountError
  | transactionNotDeclaredError
  | conditionError
  | redeclarationError
  | dereferenceError
  | overflowError
  | underflowError
  | negativeShiftError
  | divisionByZeroError
  | invalidatedResourceError
  | destroyedResourceError
  | forceNilError
  | forceCastTypeMismatchError
  | typeMismatchError
  | invalidMemberReferenceError
  | invalidPathDomainError
  | overwriteError
  | arrayIndexOutOfBoundsError
  | arraySliceIndicesError
  | invalidSliceIndexError
  | stringIndexOutOfBoundsError
  | stringSliceIndicesError
  | eventEmissionUnavailableError
  | uuidUnavailableError
  | typeLoadingError
  | useBeforeInitializationError
  | memberAccessTypeError
  | valueTransferTypeError
  | unexpectedMappedEntitlementError
  | resourceConstructionError
  | containerMutationError
  | nonStorableValueError
  | nonStorableStaticTypeError
  | interfaceMissingLocationError
  | invalidOperandsError
  | invalidPublicKeyError
  | nonTransferableValueError
  | duplicateKeyInResourceDictionaryError
  | storageMutatedDuringIterationError
  | containerMutatedDuringIterationError
  | invalidHexByteError
  | invalidHexLengthError
  | invalidatedResourceReferenceError
  | duplicateAttachmentError
  | attachmentIterationMutationError
  | invalidAttachmentOperationTargetError
  | recursiveTransferError
  | capabilityAddressPublishingError
  | entitledCapabilityPublishingError
  | nestedReferenceError
  | inclusiveRangeConstructionError
  | invalidCapabilityIssueTypeError
  | resourceReferenceDereferenceError
  | resourceLossError
  | invalidCapabilityIDError
  | referencedValueChangedError
  | getCapabilityError
deriving DecidableEq, Repr, Fintype

/-- Which error kinds implement the `IsUserError` marker
(`var _ errors.UserError = ...` in `errors.go`). -/
def isUserError : ErrorKind → Bool
  | .unsupportedOperation => false
  | .invalidatedResourceError => false
  | .memberAccessTypeError => false
  | .valueTransferTypeError => false
  | .unexpectedMappedEntitlementError => false
  | .resourceConstructionError => false
  | .invalidAttachmentOperationTargetError => false
  | .resourceReferenceDereferenceError => false
  | .invalidCapabilityIDError => false
  | _ => true

/-- Which error kinds implement the `IsInternalError` marker
(`var _ errors.InternalError = ...` in `errors.go`). -/
def isInternalError : ErrorKind → Bool
  | .unsupportedOperation => true
  | .invalidatedResourceError => true
  | .memberAccessTypeError => true
  | .valueTransferTypeError => true
  | .unexpectedMappedEntitlementError => true
  | .resourceConstructionError => true
  | .invalidAttachmentOperationTargetError => true
  | .resourceReferenceDereferenceError => true
  | .invalidCapabilityIDError => true
  | _ => false

/-- Which error kinds embed a `LocationRange` (or, for the two
`ast.Range`-embedding kinds, a source range). -/
def hasLocationRange : ErrorKind → Bool
  | .notDeclaredError => false
  | .notInvokableError => false
  | .argumentCountError => false
  | .transactionNotDeclaredError => false
  | .redeclarationError => false
  | .typeLoadingError => false
  | .nonStorableValueError => false
  | .nonStorableStaticTypeError => false
  | .interfaceMissingLocationError => false
  | .nonTransferableValueError => false
  | .invalidCapabilityIDError => false
  | _ => true

/-! ### Concrete instances used by the witnesses -/

/-- A concrete set with one conjunction atom and one unrelated disjunction. -/
def witnessSet : EntitlementSet :=
  { Entitlements := [1], Disjunctions := [[2, 3]] }

/-- The storage collaborator with nothing stored anywhere. -/
def emptyStorage : Storage := fun _ _ _ => none

/-- A concrete storage reference borrowing `Int` from `/storage/test` of
account `1`. -/
def testRef : StorageReferenceValue :=
  { BorrowedType := some .int
    TargetPath := { domain := "storage", identifier := "test" }
    TargetStorageAddress := 1
    Authorization := .unauthorized }

/-- A concrete storage reference value that may itself be stored, to
exercise the nested-reference check. -/
def innerRef : StorageReferenceValue :=
  { BorrowedType := none
    TargetPath := { domain := "storage", identifier := "inner" }
    TargetStorageAddress := 2
    Authorization := .unauthorized }

/-! ### Helper lemmas -/

theorem mem_addEntitlement_of_mem {a : Entitlement} {acc : List Entitlement}
    (e : Entitlement) (h : a ∈ acc) : a ∈ addEntitlement acc e := by
  unfold addEntitlement
  split
  · exact h
  · exact List.mem_append_left _ h

theorem mem_addEntitlement_self (acc : List Entitlement) (e : Entitlement) :
    e ∈ addEntitlement acc e := by
  unfold addEntitlement
  split
  · assumption
  · exact List.mem_append_right _ (List.mem_singleton.mpr rfl)

theorem mem_unionInto_left {a : Entitlement} {acc : List Entitlement}
    (d : List Entitlement) (h : a ∈ acc) : a ∈ unionInto acc d := by
  induction d generalizing acc with
  | nil => exact h
  | cons x xs ih => exact ih (mem_addEntitlement_of_mem x h)

theorem mem_unionInto_right {a : Entitlement} {d : List Entitlement}
    (acc : List Entitlement) (h : a ∈ d) : a ∈ unionInto acc d := by
  induction d generalizing acc with
  | nil => cases h
  | cons x xs ih =>
    rcases List.mem_cons.mp h with h1 | h1
    · subst h1
      exact mem_unionInto_left xs (mem_addEntitlement_self acc a)
    · exact ih _ h1

theorem mem_unionAll_left {a : Entitlement} {acc : List Entitlement}
    (ds : List (List Entitlement)) (h : a ∈ acc) : a ∈ unionAll acc ds := by
  induction ds generalizing acc with
  | nil => exact h
  | cons d rest ih => exact ih (mem_unionInto_left d h)

theorem mem_unionAll_right {a : Entitlement} {d : List Entitlement}
    {ds : List (List Entitlement)} (acc : List Entitlement)
    (hd : d ∈ ds) (h : a ∈ d) : a ∈ unionAll acc ds := by
  induction ds generalizing acc with
  | nil => cases hd
  | cons x xs ih =>
    rcases List.mem_cons.mp hd with h1 | h1
    · subst h1
      exact mem_unionAll_left xs (mem_unionInto_right acc h)
    · exact ih _ h1

theorem mem_insertSorted {x a : Entitlement} {l : List Entitlement} :
    x ∈ insertSorted a l ↔ x = a ∨ x ∈ l := by
  induction l with
  | nil => simp [insertSorted]
  | cons b rest ih =>
    unfold insertSorted
    split
    · rename_i hab
      subst hab
      simp [List.mem_cons]
    · split
      · simp [List.mem_cons]
      · simp only [List.mem_cons, ih]
        tauto

theorem mem_disjunctionKey {x : Entitlement} {d : List Entitlement} :
    x ∈ disjunctionKey d ↔ x ∈ d := by
  induction d with
  | nil => simp [disjunctionKey]
  | cons y ys ih =>
    show x ∈ insertSorted y (disjunctionKey ys) ↔ _
    rw [mem_insertSorted, ih]
    simp [List.mem_cons]

theorem key_mem_setByKey (l : List (List Entitlement)) (d : List Entitlement) :
    disjunctionKey d ∈ (setByKey l d).map disjunctionKey := by
  induction l with
  | nil => simp [setByKey]
  | cons dj rest ih =>
    unfold setByKey
    split
    · simp
    · exact List.mem_cons_of_mem _ ih

theorem map_key_setByKey_of_mem {l : List (List Entitlement)}
    {d : List Entitlement} (h : disjunctionKey d ∈ l.map disjunctionKey) :
    (setByKey l d).map disjunctionKey = l.map disjunctionKey := by
  induction l with
  | nil => simp at h
  | cons dj rest ih =>
    unfold setByKey
    split
    · rename_i heq
      simp [heq]
    · rename_i hne
      have h' : disjunctionKey d ∈ rest.map disjunctionKey := by
        rcases List.mem_cons.mp h with h1 | h1
        · exact absurd h1.symm hne
        · exact h1
      simp [ih h']

theorem mem_map_key_setByKey {l : List (List Entitlement)}
    {d : List Entitlement} {k : List Entitlement}
    (h : k ∈ l.map disjunctionKey) :
    k ∈ (setByKey l d).map disjunctionKey := by
  induction l with
  | nil => simp at h
  | cons dj rest ih =>
    unfold setByKey
    split
    · rename_i heq
      rcases List.mem_cons.mp h with h1 | h1
      · exact List.mem_cons.mpr (Or.inl (h1.trans heq))
      · exact List.mem_cons_of_mem _ h1
    · rcases List.mem_cons.mp h with h1 | h1
      · exact h1 ▸ List.mem_cons_self _ _
      · exact List.mem_cons_of_mem _ (ih h1)

/-! ### The claims -/

/-- C1: for the conformance diamond `A: B`, `B: C, D`, `C: E, F`, `D: F`
(`A` concrete), the inherited pre-conditions execute in depth-first
pre-order, each declaring interface's block exactly once despite `F` being
reachable via two paths, logging `B, C, E, F, D` and then `A`'s own
pre-condition last; the post-conditions execute in the exact reverse order,
logging `A, D, F, E, C, B`. -/
theorem diamond_condition_orders :
    preConditionOrder diamondConformances "A" 10 = ["B", "C", "E", "F", "D", "A"]
    ∧ postConditionOrder diamondConformances "A" 10
        = ["A", "D", "F", "E", "C", "B"] := by
  decide

/-- C3: array-literal element supertype inference yields the universal
hashable-struct top type for `[0, true]`, abstract `Integer` for
`[UInt(65), 6, 275, 13423]`, `UInt` for an all-`UInt` literal,
`Optional(String)` for `["hello", nil, nil]`, and a type-annotation-required
error (not a silent top type) for a literal mixing a resource operand and a
struct operand. -/
theorem array_supertype_inference_examples :
    inferArrayLiteralElementType [.int, .bool] = .ok .hashableStruct
    ∧ inferArrayLiteralElementType [.uint, .int, .int, .int] = .ok .integer
    ∧ inferArrayLiteralElementType [.uint, .uint, .uint, .uint] = .ok .uint
    ∧ inferArrayLiteralElementType [.string, .optional .never, .optional .never]
        = .ok (.optional .string)
    ∧ inferArrayLiteralElementType [.compositeResource "Foo", .compositeStruct "Bar"]
        = .error .typeAnnotationRequired :=
  ⟨rfl, rfl, rfl, rfl, rfl⟩

/-- C7: declaring `[Int; N]` with `N = 2^64` (exceeding the representable
size) and an empty literal reports exactly two checker errors — an
out-of-range-size error and a literal-size-mismatch error — neither masking
the other. -/
theorem constant_sized_out_of_range_two_errors :
    checkConstantSizedArrayDeclaration (2 ^ 64) 0 =
      [CheckerErr.invalidConstantSizedTypeSize (2 ^ 64),
       CheckerErr.constantSizedArrayLiteralSize (2 ^ 64) 0] := by
  decide

/-- C8: `TypeMismatchError`, `ConditionError`, `ResourceLossError` and
`ArrayIndexOutOfBoundsError` are user errors carrying a location range;
`MemberAccessTypeError`, `InvalidCapabilityIDError` and
`UnexpectedMappedEntitlementError` are internal errors; and no interpreter
error kind implements both markers. -/
theorem interpreter_error_taxonomy :
    ([ErrorKind.typeMismatchError, .conditionError, .resourceLossError,
        .arrayIndexOutOfBoundsError].all
          (fun k => isUserError k && hasLocationRange k) = true)
    ∧ ([ErrorKind.memberAccessTypeError, .invalidCapabilityIDError,
        .unexpectedMappedEntitlementError].all isInternalError = true)
    ∧ (∀ k : ErrorKind, ¬(isUserError k = true ∧ isInternalError k = true)) := by
  decide

/-- C2 counterexample: on the set built by `AddDisjunction({E1, E2})` then
`Add(E1)` — the exact construction of the source test case
`TestEntitlementSet_Access/entitlement, one disjunction, not minimal`, whose
asserted result is the conjunction of `E1` alone — `Access()` differs from
the claim's case analysis under either reading of "no conjunction atoms
beyond it": the claim predicts either the disjunction `{E1, E2}` or a
conjunction containing `E2`, but the disjunction is removed by minimization
and `E2` is mentioned in the set yet absent from the result. -/
theorem entitlementSet_access_claim_counterexample :
    notMinimalSet.Access = .entitlementSetAccess [1] .conjunction
    ∧ notMinimalSet.Access ≠ accessPerClaim notMinimalSet
    ∧ notMinimalSet.Access ≠ accessPerClaimStrict notMinimalSet
    ∧ (2 ∈ unionAll notMinimalSet.Entitlements notMinimalSet.Disjunctions
        ∧ (2 : Entitlement) ∉ [1]) := by
  decide

/-- C2 (amended): `Access()` first minimizes the set (dropping every
disjunction that intersects the conjunction part) and then projects the
minimized set: `Unauthorized` when it is empty; a `Conjunction` of exactly
the conjunction atoms when no disjunctions remain; a `Disjunction` of the
single remaining disjunction when the conjunction part is empty; and
otherwise (two or more remaining disjunctions, or a remaining disjunction
plus conjunction atoms) a `Conjunction` containing every entitlement
mentioned anywhere in the minimized set, never fewer. -/
theorem entitlementSet_access_minimizes (s : EntitlementSet) :
    ((s.Minimize).Entitlements = [] → (s.Minimize).Disjunctions = [] →
        s.Access = .unauthorized)
    ∧ ((s.Minimize).Entitlements ≠ [] → (s.Minimize).Disjunctions = [] →
        s.Access = .entitlementSetAccess (s.Minimize).Entitlements .conjunction)
    ∧ (∀ d, (s.Minimize).Entitlements = [] → (s.Minimize).Disjunctions = [d] →
        s.Access = .entitlementSetAccess d .disjunction)
    ∧ ((2 ≤ (s.Minimize).Disjunctions.length ∨
          ((s.Minimize).Disjunctions ≠ [] ∧ (s.Minimize).Entitlements ≠ [])) →
        ∃ es, s.Access = .entitlementSetAccess es .conjunction
          ∧ (∀ e, e ∈ (s.Minimize).Entitlements → e ∈ es)
          ∧ (∀ e d, d ∈ (s.Minimize).Disjunctions → e ∈ d → e ∈ es)) := by
  refine ⟨?_, ?_, ?_, ?_⟩
  · intro he hd
    simp [EntitlementSet.Access, hd, he]
  · intro he hd
    simp [EntitlementSet.Access, hd, List.isEmpty_iff, he]
  · intro d he hd
    simp [EntitlementSet.Access, hd, he]
  · intro hcond
    rcases hd : (s.Minimize).Disjunctions with _ | ⟨d, ds⟩
    · rcases hcond with h2 | ⟨hne, _⟩
      · rw [hd] at h2; simp at h2
      · exact absurd hd hne
    · by_cases he : (s.Minimize).Entitlements = []
      · rcases hcond with h2 | ⟨_, hne⟩
        · rcases hds : ds with _ | ⟨d2, ds2⟩
          · rw [hd, hds] at h2; simp at h2
          · refine ⟨unionAll [] (d :: d2 :: ds2), ?_, ?_, ?_⟩
            · simp [EntitlementSet.Access, hd, he, hds]
            · intro e hee
              rw [he] at hee
              cases hee
            · intro e dj hdj hedj
              exact mem_unionAll_right [] hdj hedj
        · exact absurd he hne
      · refine ⟨unionAll (s.Minimize).Entitlements (d :: ds), ?_, ?_, ?_⟩
        · simp [EntitlementSet.Access, hd, List.isEmpty_iff, he]
        · intro e hee
          exact mem_unionAll_left _ hee
        · intro e dj hdj hedj
          exact mem_unionAll_right _ hdj hedj

/-- C2 witness: the amended behavior at concrete sets — the empty set maps
to `Unauthorized`, a pure single-disjunction set maps to that disjunction,
and the set with conjunction atom `1` and the two disjoint disjunctions
`{2, 3}` and `{4, 5}` maps to a conjunction containing every mentioned
entitlement. -/
theorem entitlementSet_access_minimizes_witness :
    ({} : EntitlementSet).Access = .unauthorized
    ∧ ({ Disjunctions := [[1, 2]] } : EntitlementSet).Access
        = .entitlementSetAccess [1, 2] .disjunction
    ∧ ∃ es, mixedSet.Access = .entitlementSetAccess es .conjunction
        ∧ (∀ e, e ∈ (mixedSet.Minimize).Entitlements → e ∈ es)
        ∧ (∀ e d, d ∈ (mixedSet.Minimize).Disjunctions → e ∈ d → e ∈ es) := by
  refine ⟨?_, ?_, ?_⟩
  · exact (entitlementSet_access_minimizes {}).1 rfl rfl
  · exact (entitlementSet_access_minimizes _).2.2.1 [1, 2] rfl rfl
  · exact (entitlementSet_access_minimizes mixedSet).2.2.2 (by decide)

/-- C6: an `EntitlementSet` is non-minimal by construction — `Add` of an
atom already contained in some disjunction leaves the disjunction list
unchanged; `AddDisjunction` silently drops a disjunction whose members
intersect the conjunction set, and otherwise deduplicates structurally (two
disjunctions with the same member set, in any order, occupy one entry under
one key); `Minimize` keeps the conjunction set and removes exactly the
disjunctions whose member sets intersect it; and neither `Add` nor
`AddDisjunction` removes an existing disjunction (its key survives). -/
theorem entitlementSet_nonminimal_construction
    (s : EntitlementSet) (e : Entitlement) (d d1 d2 : List Entitlement) :
    ((∃ dj ∈ s.Disjunctions, e ∈ dj) → (s.Add e).Disjunctions = s.Disjunctions)
    ∧ ((∃ m ∈ d, m ∈ s.Entitlements) → s.AddDisjunction d = s)
    ∧ (disjunctionKey d1 = disjunctionKey d2 →
        ((s.AddDisjunction d1).AddDisjunction d2).Disjunctions.map disjunctionKey
          = (s.AddDisjunction d1).Disjunctions.map disjunctionKey)
    ∧ ((s.Minimize).Entitlements = s.Entitlements)
    ∧ (∀ dj, dj ∈ (s.Minimize).Disjunctions ↔
        dj ∈ s.Disjunctions ∧ ∀ m ∈ dj, m ∉ s.Entitlements)
    ∧ (∀ dj ∈ s.Disjunctions,
        dj ∈ (s.Add e).Disjunctions
        ∧ disjunctionKey dj ∈ ((s.AddDisjunction d).Disjunctions.map disjunctionKey)) := by
  have hmemkey : ∀ x : Entitlement, ∀ l1 l2 : List Entitlement,
      disjunctionKey l1 = disjunctionKey l2 → (x ∈ l1 ↔ x ∈ l2) := by
    intro x l1 l2 hk
    rw [← mem_disjunctionKey (d := l1), ← mem_disjunctionKey (d := l2), hk]
  have hAddDisj : (s.Add e).Disjunctions = s.Disjunctions := by
    unfold EntitlementSet.Add
    split <;> rfl
  refine ⟨fun _ => hAddDisj, ?_, ?_, rfl, ?_, ?_⟩
  · intro h
    unfold EntitlementSet.AddDisjunction
    rw [if_pos]
    simp only [List.any_eq_true, decide_eq_true_eq]
    exact h
  · intro hk
    unfold EntitlementSet.AddDisjunction
    by_cases hov : d1.any (fun m => decide (m ∈ s.Entitlements)) = true
    · have hov2 : d2.any (fun m => decide (m ∈ s.Entitlements)) = true := by
        simp only [List.any_eq_true, decide_eq_true_eq] at hov ⊢
        obtain ⟨m, hm, hms⟩ := hov
        exact ⟨m, (hmemkey m d1 d2 hk).mp hm, hms⟩
      rw [if_pos hov, if_pos hov2]
    · have hov2 : ¬d2.any (fun m => decide (m ∈ s.Entitlements)) = true := by
        simp only [List.any_eq_true, decide_eq_true_eq] at hov ⊢
        intro ⟨m, hm, hms⟩
        exact hov ⟨m, (hmemkey m d1 d2 hk).mpr hm, hms⟩
      rw [if_neg hov, if_neg hov2]
      exact map_key_setByKey_of_mem (hk ▸ key_mem_setByKey s.Disjunctions d1)
  · intro dj
    unfold EntitlementSet.Minimize
    simp only [List.mem_filter, Bool.not_eq_true', List.any_eq_false,
      decide_eq_true_eq]
  · intro dj hdj
    refine ⟨hAddDisj ▸ hdj, ?_⟩
    unfold EntitlementSet.AddDisjunction
    split
    · exact List.mem_map_of_mem _ hdj
    · exact mem_map_key_setByKey (List.mem_map_of_mem _ hdj)

/-- C6 witness: the non-minimality properties at the concrete set with
conjunction `{1}` and disjunction `{2, 3}`. -/
theorem entitlementSet_nonminimal_construction_witness :
    (witnessSet.Add 2).Disjunctions = witnessSet.Disjunctions
    ∧ witnessSet.AddDisjunction [1, 4] = witnessSet
    ∧ ((witnessSet.AddDisjunction [5, 6]).AddDisjunction [6, 5]).Disjunctions.map
          disjunctionKey
        = (witnessSet.AddDisjunction [5, 6]).Disjunctions.map disjunctionKey := by
  have h := entitlementSet_nonminimal_construction witnessSet 2 [1, 4] [5, 6] [6, 5]
  exact ⟨h.1 (by decide), h.2.1 (by decide), h.2.2.1 (by decide)⟩

/-- C4: `StorageReferenceValue` dereferencing re-resolves the target from
storage on every access and never caches — after the value stored at the
reference's `(address, domain, path)` is replaced, the next access observes
the new value; when nothing is stored at the path, dereference yields no
value and value-requiring call sites fail with a `DereferenceError` whose
cause is "no value is stored at this path"; and when a borrowed type is set
and the fetched value's runtime type is not a subtype of it, dereference
fails with `ForceCastTypeMismatchError`, which value-requiring call sites
wrap into a `DereferenceError` carrying the same expected and actual
types. -/
theorem storageReference_dereference_behavior
    (r : StorageReferenceValue) (s : Storage) (v : IValue) (bt : Ty) :
    (v.isReference = false →
      (∀ b, r.BorrowedType = some b → isSubTy v.staticType b = true) →
      r.dereference
          (writeStored s r.TargetStorageAddress r.TargetPath.domain
            r.TargetPath.identifier (some v))
        = .ok (some v))
    ∧ (s r.TargetStorageAddress r.TargetPath.domain r.TargetPath.identifier
          = none →
        r.dereference s = .ok none
        ∧ r.mustReferencedValue s
            = .panicDereferenceError ⟨"no value is stored at this path", none, none⟩)
    ∧ (s r.TargetStorageAddress r.TargetPath.domain r.TargetPath.identifier
          = some v →
        v.isReference = false →
        r.BorrowedType = some bt →
        isSubTy v.staticType bt = false →
        r.dereference s = .forceCastError bt v.staticType
        ∧ r.mustReferencedValue s
            = .panicDereferenceError ⟨"", some bt, some v.staticType⟩) := by
  refine ⟨?_, ?_, ?_⟩
  · intro hnr hbor
    rcases hbt : r.BorrowedType with _ | b
    · simp [StorageReferenceValue.dereference, writeStored, hnr, hbt]
    · have hs := hbor b hbt
      simp [StorageReferenceValue.dereference, writeStored, hnr, hbt, hs]
  · intro h0
    have hd : r.dereference s = .ok none := by
      simp [StorageReferenceValue.dereference, h0]
    refine ⟨hd, ?_⟩
    simp [StorageReferenceValue.mustReferencedValue,
      StorageReferenceValue.ReferencedValue, hd]
  · intro hst hnr hbt hsub
    have hd : r.dereference s = .forceCastError bt v.staticType := by
      simp [StorageReferenceValue.dereference, hst, hnr, hbt, hsub]
    refine ⟨hd, ?_⟩
    simp [StorageReferenceValue.mustReferencedValue,
      StorageReferenceValue.ReferencedValue, hd]

/-- C4 witness: the concrete reference `testRef` (borrowing `Int` from
`/storage/test` of account `1`) observes a freshly written `Int`, fails with
the no-value `DereferenceError` on empty storage, and fails with the
type-mismatch outcomes when a `String` is stored instead. -/
theorem storageReference_dereference_behavior_witness :
    testRef.dereference
        (writeStored emptyStorage 1 "storage" "test" (some (.intValue 42)))
      = .ok (some (.intValue 42))
    ∧ testRef.dereference emptyStorage = .ok none
    ∧ testRef.mustReferencedValue emptyStorage
        = .panicDereferenceError ⟨"no value is stored at this path", none, none⟩
    ∧ testRef.dereference
        (writeStored emptyStorage 1 "storage" "test" (some (.stringValue "hello")))
        = .forceCastError .int .string
    ∧ testRef.mustReferencedValue
        (writeStored emptyStorage 1 "storage" "test" (some (.stringValue "hello")))
        = .panicDereferenceError ⟨"", some .int, some .string⟩ := by
  have h1 := storageReference_dereference_behavior testRef emptyStorage
    (.intValue 42) .int
  have h2 := storageReference_dereference_behavior testRef emptyStorage
    (.intValue 0) .int
  have h3 := storageReference_dereference_behavior testRef
    (writeStored emptyStorage 1 "storage" "test" (some (.stringValue "hello")))
    (.stringValue "hello") .int
  refine ⟨h1.1 rfl ?_, (h2.2.1 rfl).1, (h2.2.1 rfl).2,
    (h3.2.2 rfl rfl rfl rfl).1, (h3.2.2 rfl rfl rfl rfl).2⟩
  intro b hb
  injection hb with hb2
  subst hb2
  rfl

/-- C9: a reference never points at another reference — whenever the value
stored at a storage reference's target path is itself a reference value,
dereferencing is rejected with `NestedReferenceError`, for every storage
reference and every stored reference value. -/
theorem dereference_nested_reference_rejected
    (r : StorageReferenceValue) (s : Storage) (v : IValue)
    (hstored : s r.TargetStorageAddress r.TargetPath.domain
        r.TargetPath.identifier = some v)
    (href : v.isReference = true) :
    r.dereference s = .nestedReferencePanic v := by
  simp [StorageReferenceValue.dereference, hstored, href]

/-- C9 witness: dereferencing `testRef` when another storage reference is
stored at its target path panics with `NestedReferenceError`. -/
theorem dereference_nested_reference_rejected_witness :
    testRef.dereference
        (writeStored emptyStorage 1 "storage" "test"
          (some (.storageReference innerRef)))
      = .nestedReferencePanic (.storageReference innerRef) :=
  dereference_nested_reference_rejected testRef
    (writeStored emptyStorage 1 "storage" "test"
      (some (.storageReference innerRef)))
    (.storageReference innerRef) rfl rfl

/-- C10: two `StorageReferenceValue`s are `Equal` iff they have the same
target storage address, the same target path, equal authorizations, and
equal borrowed types (or both unset); the decision is purely over these four
fields — `Equal` takes no storage collaborator and never dereferences, so
references to the same path compare equal regardless of what (if anything)
is stored there. -/
theorem storageReference_equal_iff (v o : StorageReferenceValue) :
    v.Equal (.storageReference o) = true ↔
      v.TargetStorageAddress = o.TargetStorageAddress
      ∧ v.TargetPath = o.TargetPath
      ∧ v.Authorization.equal o.Authorization = true
      ∧ v.BorrowedType = o.BorrowedType := by
  unfold StorageReferenceValue.Equal
  split
  · rename_i other otherRef heq
    injection heq with heq2
    subst heq2
    split
    · rename_i hcond
      simp only [Bool.false_eq_true, false_iff]
      intro ⟨hh1, hh2, hh3, _⟩
      rcases hcond with hh | hh | hh
      · exact hh hh1
      · exact hh hh2
      · exact hh hh3
    · rename_i hcond
      push_neg at hcond
      obtain ⟨h1, h2, h3⟩ := hcond
      cases hB : v.BorrowedType <;> cases hO : o.BorrowedType <;>
        simp [h1, h2, h3]
  · rename_i other h
    exact absurd rfl (h o)

/-- C5: in container-literal supertype inference, nested containers recurse
structurally, and a structural mismatch below the outermost level — here
constant-sized arrays of different declared sizes — collapses the inferred
type at that position to the universal top type `AnyStruct` (for
non-resource elements): in particular,
`[[[1,2] as [Int;2]], [["foo","bar","baz"] as [String;3]], [[5.3,6.4] as [Fix64;2]]]`
infers element type `[AnyStruct]`. -/
theorem nested_inference_collapse
    (t1 t2 : Ty) (m n : Nat) (fuel : Nat)
    (hmn : m ≠ n)
    (h1 : t1.isResourceKinded = false) (h2 : t2.isResourceKinded = false) :
    joinTy (fuel + 1) (.constArray t1 m) (.constArray t2 n) = some .anyStruct
    ∧ inferArrayLiteralElementType
        [.varArray (.constArray .int 2), .varArray (.constArray .string 3),
         .varArray (.constArray .fix64 2)]
      = .ok (.varArray .anyStruct) := by
  constructor
  · have hne : (Ty.constArray t1 m) ≠ (Ty.constArray t2 n) := by
      intro hcontra
      injection hcontra with ha hb
      exact hmn hb
    unfold joinTy
    rw [if_neg hne]
    show (if m = n then (joinTy fuel t1 t2).map (.constArray · n)
          else collapseTy (.constArray t1 m) (.constArray t2 n)) = some .anyStruct
    rw [if_neg hmn]
    simp [collapseTy, Ty.isResourceKinded, h1, h2, Ty.isHashableStructKinded]
  · rfl

/-- C5 witness: the collapse at the concrete sizes 2 and 3 with element
types `Int` and `String`, together with the cited literal's inference. -/
theorem nested_inference_collapse_witness :
    joinTy 1 (.constArray .int 2) (.constArray .string 3) = some .anyStruct
    ∧ inferArrayLiteralElementType
        [.varArray (.constArray .int 2), .varArray (.constArray .string 3),
         .varArray (.constArray .fix64 2)]
      = .ok (.varArray .anyStruct) :=
  nested_inference_collapse .int .string 2 3 0 (by decide) rfl rfl

/-- C10 witness: a concrete storage reference is `Equal` to itself. -/
theorem storageReference_equal_iff_witness :
    StorageReferenceValue.Equal testRef (.storageReference testRef) = true :=
  (storageReference_equal_iff testRef testRef).mpr ⟨rfl, rfl, rfl, rfl⟩

end Cadence
